import Mathlib

/-!
Shallow embedding of the cellular-automaton engine in `src/auto_cell.cpp`
(classes `Cell` and `CellGrand`, plus the SDL host glue relevant to the
claims).  C++ `int` values are modelled as `Int` (no overflow is reachable
at the capacities involved); the `float` quantities (`scale_x_`, `scale_y_`,
mouse coordinates, `CellShake`) only ever hold whole numbers in the runs we
study, so they are modelled as `Int` with C-style truncating division
(`Int.tdiv`).  The fixed-size array
`Cell cells_[MAX_CELL_COUNT]` is modelled as a total function `Nat → Cell`;
the two `assert`s are modelled as `Option` failure (`none` = the assertion
fires and the program refuses to proceed).  The Mersenne-Twister jitter
source `Random::get(-1, 1)` is modelled as an oracle stream `rnd : Nat → Int`
together with a consumption counter.
-/

/-- `SDL_Rect` (`using CellShape = SDL_Rect`). -/
structure CellShape where
  x : Int
  y : Int
  w : Int
  h : Int
deriving DecidableEq, Repr

/-- `SDL_FPoint` (`using CellShake = SDL_FPoint`); holds only whole numbers. -/
structure CellShake where
  x : Int
  y : Int
deriving DecidableEq, Repr

/-- `#define MAX_CELL_COUNT 16384` (line 27). -/
def MAX_CELL_COUNT : Int := 16384

/-- Class `Cell` (lines 69-92).  In the source `shape_` has no default member
initializer, so a default-constructed `Cell` has an indeterminate shape; the
model picks the all-zero rectangle for that indeterminate value. -/
structure Cell where
  is_active_ : Bool := false
  wait_for_select_ : Bool := false
  active_change : Bool := false
  shape_ : CellShape := ⟨0, 0, 0, 0⟩
  shake_ : CellShake := ⟨0, 0⟩
deriving DecidableEq, Repr

instance : Inhabited Cell := ⟨{}⟩

/-- The cell array `Cell cells_[MAX_CELL_COUNT]` as a total function. -/
def Cells := Nat → Cell

/-- Write the array slot `k` through `f` (in-place mutation `cells_[k] = ...`). -/
def updateCell (cs : Cells) (k : Nat) (f : Cell → Cell) : Cells :=
  fun n => if n = k then f (cs k) else cs n

/-- State of class `CellGrand` (lines 94-163).  `cell_count_` is
uninitialized in the source until `init_cells_` runs; the constructor calls
`init_cells_` before any read, and the model starts it at `0`. -/
structure CellGrand where
  side_ : Int
  w_ : Int
  h_ : Int
  cells_ : Cells
  cell_count_ : Int
  scale_x_ : Int
  scale_y_ : Int
  ready_ : Int
  start_ : Bool

instance : Inhabited CellGrand :=
  ⟨{ side_ := 0, w_ := 0, h_ := 0, cells_ := fun _ => {}, cell_count_ := 0,
     scale_x_ := 1, scale_y_ := 1, ready_ := 0, start_ := false }⟩

/-- `const int kGap = 2;` (line 263). -/
def kGap : Int := 2

/-- One axis of `init_cells_` (lines 271-278 for the x axis, lines 280-287
for the y axis; both axes run exactly this computation).  Result:
(start coordinate, new column/row count). -/
def layoutAxis (side count win : Int) : Int × Int :=
  let extent := side * count + kGap * (count - 1)
  if extent > win - (4 * kGap + 2 * side) then
    (2 * kGap, (win - 2).tdiv (2 + side))
  else
    ((win - extent).tdiv 2, (extent + 2).tdiv (side + 2))

/-- `CellGrand::init_cells_` (lines 261-301).  `window_w`/`window_h` are the
physical window size read from `SDL_GetWindowSize`, divided by the stored
render scale (lines 268-269).  The capacity `assert` (line 291) is modelled
as `Option` failure.  Note the cell-reset loop (lines 293-300) indexes with
`i * w_ + j` while `i` ranges over `[0, w_)` and `j` over `[0, h_)`, and it
does not touch `shake_` or `ready_`. -/
def init_cells_ (window_w window_h : Int) (g : CellGrand) : Option CellGrand :=
  let ww := window_w.tdiv g.scale_x_
  let wh := window_h.tdiv g.scale_y_
  let sx := (layoutAxis g.side_ g.w_ ww).1
  let w2 := (layoutAxis g.side_ g.w_ ww).2
  let sy := (layoutAxis g.side_ g.h_ wh).1
  let h2 := (layoutAxis g.side_ g.h_ wh).2
  let cc := w2 * h2
  if cc ≤ MAX_CELL_COUNT then
    let wn := w2.toNat
    let cs := (List.range w2.toNat).foldl (fun cs0 i =>
      (List.range h2.toNat).foldl (fun cs1 j =>
        updateCell cs1 (i * wn + j) (fun c =>
          { c with shape_ := ⟨sx + (i : Int) * (g.side_ + kGap),
                              sy + (j : Int) * (g.side_ + kGap), g.side_, g.side_⟩,
                   wait_for_select_ := false,
                   is_active_ := false,
                   active_change := false })) cs0) g.cells_
    some { g with w_ := w2, h_ := h2, cell_count_ := cc, cells_ := cs }
  else
    none

/-- The constructor `CellGrand(int side, int w, int h)` (lines 97-101)
together with `check_valid` (line 154): the `side_ >= 3` `assert` is modelled
as `Option` failure; `SDL_GetRenderScale` supplies `scale_x`/`scale_y`, and
`SDL_GetWindowSize` inside `init_cells_` supplies `window_w`/`window_h`. -/
def CellGrand.construct (side w h scale_x scale_y window_w window_h : Int) :
    Option CellGrand :=
  if 3 ≤ side then
    init_cells_ window_w window_h
      { side_ := side, w_ := w, h_ := h, cells_ := fun _ => {},
        cell_count_ := 0, scale_x_ := scale_x, scale_y_ := scale_y,
        ready_ := 0, start_ := false }
  else
    none

/-- The SDL events `CellGrand::handle_input` distinguishes: a mouse button
press (with its button id), a key press (with its scancode), anything else. -/
inductive SDLEvent where
  | mouseButtonDown (button : Int)
  | keyDown (scancode : Int)
  | other
deriving DecidableEq, Repr

/-- `SDL_BUTTON_LEFT`. -/
def SDL_BUTTON_LEFT : Int := 1

/-- `SDL_SCANCODE_RETURN`. -/
def SDL_SCANCODE_RETURN : Int := 40

/-- The event test on line 119: left mouse button pressed. -/
def isLeftDown : SDLEvent → Bool
  | SDLEvent.mouseButtonDown b => b == SDL_BUTTON_LEFT
  | _ => false

/-- The event test on lines 130-131: the commit ("return") key pressed. -/
def isCommitKey : SDLEvent → Bool
  | SDLEvent.keyDown s => s == SDL_SCANCODE_RETURN
  | _ => false

/-- The hover test of lines 109-110: pointer inside the cell's square (the
square's extent is taken from `side`, not from the stored shape's `w`/`h`). -/
def hoverB (side mx my : Int) (c : Cell) : Bool :=
  decide (c.shape_.x ≤ mx) && decide (mx ≤ c.shape_.x + side) &&
  decide (c.shape_.y ≤ my) && decide (my ≤ c.shape_.y + side)

/-- Effect of one iteration of the `handle_input` loop (lines 108-128) on
the cell it visits: recompute `wait_for_select_`, then toggle `is_active_`
when editing, hovered, and a left press is being handled. -/
def hiCell (side mx my : Int) (start : Bool) (event : SDLEvent) (c : Cell) : Cell :=
  let c1 := { c with wait_for_select_ := hoverB side mx my c }
  if !start && c1.wait_for_select_ && isLeftDown event then
    { c1 with is_active_ := !c1.is_active_ }
  else
    c1

/-- Change that the same loop iteration makes to `ready_` (lines 120-126):
`+1` on toggle-on, `-1` on toggle-off, `0` otherwise. -/
def hiDelta (side mx my : Int) (start : Bool) (event : SDLEvent) (c : Cell) : Int :=
  if !start && hoverB side mx my c && isLeftDown event then
    (if c.is_active_ then -1 else 1)
  else
    0

/-- One iteration of the `handle_input` loop, acting on the pair
(cell array, `ready_`). -/
def hiStep (side mx my : Int) (start : Bool) (event : SDLEvent)
    (st : Cells × Int) (i : Nat) : Cells × Int :=
  (updateCell st.1 i (fun c => hiCell side mx my start event c),
   st.2 + hiDelta side mx my start event (st.1 i))

/-- `CellGrand::handle_input` (lines 103-140).  The mouse position from
`SDL_GetMouseState` is divided by the stored scale (lines 106-107); after the
per-cell loop, `ready_ > 0` plus the commit key flips `start_` (lines
130-134), and `start_ && ready_ <= 0` forces the run to stop (lines 136-139). -/
def handle_input (mouse_x mouse_y : Int) (event : SDLEvent) (g : CellGrand) :
    CellGrand :=
  let mx := mouse_x.tdiv g.scale_x_
  let my := mouse_y.tdiv g.scale_y_
  let st := (List.range g.cell_count_.toNat).foldl
    (hiStep g.side_ mx my g.start_ event) (g.cells_, g.ready_)
  let start1 := if decide (st.2 > 0) && isCommitKey event then !g.start_ else g.start_
  if start1 && decide (st.2 ≤ 0) then
    { g with cells_ := st.1, ready_ := 0, start_ := false }
  else
    { g with cells_ := st.1, ready_ := st.2, start_ := start1 }

/-- Evaluation state threaded through `CellGrand::ai_`'s nested loops:
the cell array, `ready_`, the loop-carried `check_around` counter (declared
once, line 167, and never reset between cells), and the model's jitter
oracle consumption counter. -/
structure AiSt where
  cells : Cells
  ready : Int
  check_around : Int
  k : Nat

/-- Body of the nested evaluation loops of `CellGrand::ai_` (lines 169-203)
for the cell at loop coordinates `(i, j)`, stored at slot `i * w_ + j`:
the jitter pass (lines 172-176), then, when running, the eight guarded
neighbor reads (lines 180-187; the high-edge guards are `i < w_` and
`j < h_`, exactly as in the source) and the birth/death marking
(lines 189-199). -/
def aiBody (rnd : Nat → Int) (start : Bool) (w h : Int) (i j : Nat)
    (st : AiSt) : AiSt :=
  let wn := w.toNat
  let idx := i * wn + j
  let st1 :=
    if !start && (st.cells idx).is_active_ then
      { st with
        cells := updateCell st.cells idx
                   (fun c => { c with shake_ := ⟨rnd st.k, rnd (st.k + 1)⟩ }),
        k := st.k + 2 }
    else
      { st with
        cells := updateCell st.cells idx
                   (fun c => { c with shake_ := ⟨0, 0⟩ }) }
  if start then
    let a0 := st1.check_around
    let a1 := if decide (0 < i) && decide (0 < j) &&
        (st1.cells ((i - 1) * wn + (j - 1))).is_active_ then a0 + 1 else a0
    let a2 := if decide (0 < j) &&
        (st1.cells (i * wn + (j - 1))).is_active_ then a1 + 1 else a1
    let a3 := if decide ((i : Int) < w) && decide (0 < j) &&
        (st1.cells ((i + 1) * wn + (j - 1))).is_active_ then a2 + 1 else a2
    let a4 := if decide ((i : Int) < w) &&
        (st1.cells ((i + 1) * wn + j)).is_active_ then a3 + 1 else a3
    let a5 := if decide ((i : Int) < w) && decide ((j : Int) < h) &&
        (st1.cells ((i + 1) * wn + (j + 1))).is_active_ then a4 + 1 else a4
    let a6 := if decide ((j : Int) < h) &&
        (st1.cells (i * wn + (j + 1))).is_active_ then a5 + 1 else a5
    let a7 := if decide (0 < i) && decide ((j : Int) < h) &&
        (st1.cells ((i - 1) * wn + (j + 1))).is_active_ then a6 + 1 else a6
    let a8 := if decide (0 < i) &&
        (st1.cells ((i - 1) * wn + j)).is_active_ then a7 + 1 else a7
    if !(st1.cells idx).is_active_ then
      if a8 == 3 then
        { st1 with
          cells := updateCell st1.cells idx (fun c => { c with active_change := true }),
          ready := st1.ready + 1, check_around := a8 }
      else
        { st1 with check_around := a8 }
    else
      if a8 < 2 || a8 > 3 then
        { st1 with
          cells := updateCell st1.cells idx (fun c => { c with active_change := true }),
          ready := st1.ready - 1, check_around := a8 }
      else
        { st1 with check_around := a8 }
  else
    st1

/-- `CellGrand::ai_` (lines 166-215): the nested evaluation loops followed by
the commit loop (lines 208-213) that flips every `active_change`-marked slot
in `[0, cell_count_)` and clears its mark. -/
def ai_ (rnd : Nat → Int) (g : CellGrand) : CellGrand :=
  let st0 : AiSt := ⟨g.cells_, g.ready_, 0, 0⟩
  let st := (List.range g.w_.toNat).foldl (fun s i =>
    (List.range g.h_.toNat).foldl (fun s2 j =>
      aiBody rnd g.start_ g.w_ g.h_ i j s2) s) st0
  let cs := (List.range g.cell_count_.toNat).foldl (fun cs i =>
    if (cs i).active_change then
      updateCell cs i (fun c =>
        { c with is_active_ := !c.is_active_, active_change := false })
    else cs) st.cells
  { g with cells_ := cs, ready_ := st.ready }

/-- `CellGrand::update_` (lines 247-259): if the observed render scale equals
the stored one (the source compares floats within epsilon) do nothing, else
store the new scale and re-run `init_cells_`. -/
def update_ (scale_x scale_y window_w window_h : Int) (g : CellGrand) :
    Option CellGrand :=
  if g.scale_x_ == scale_x && g.scale_y_ == scale_y then
    some g
  else
    init_cells_ window_w window_h { g with scale_x_ := scale_x, scale_y_ := scale_y }

/-- `CellGrand::play` (lines 142-147): `update_`, then `ai_`, then drawing
(pure rendering, irrelevant to state), then `return start_;`.  The observed
scale and window size are parameters; the jitter oracle is threaded. -/
def play (scale_x scale_y window_w window_h : Int) (rnd : Nat → Int)
    (g : CellGrand) : Option (Bool × CellGrand) :=
  (update_ scale_x scale_y window_w window_h g).map
    (fun g1 => ((ai_ rnd g1).start_, ai_ rnd g1))

/-- Number of active cells among slots `[0, n)`, as an integer. -/
def countAct (cs : Cells) : Nat → Int
  | 0 => 0
  | n + 1 => countAct cs n + (if (cs n).is_active_ then 1 else 0)

/-- Number of active cells of the grid (slots `[0, cell_count_)`). -/
def activeCount (g : CellGrand) : Int :=
  countAct g.cells_ g.cell_count_.toNat

/-- Fold a list of `(mouse_x, mouse_y, event)` inputs through `handle_input`. -/
def runInputs (evs : List (Int × Int × SDLEvent)) (g : CellGrand) : CellGrand :=
  evs.foldl (fun g e => handle_input e.1 e.2.1 e.2.2 g) g

/-- The eight Moore-neighborhood offsets. -/
def mooreOffsets : List (Int × Int) :=
  [(-1, -1), (-1, 0), (-1, 1), (0, -1), (0, 1), (1, -1), (1, 0), (1, 1)]

/-- Refinement comparator following the spec's words (§4.4 step 1): the
number of active cells among the at-most-8 Moore neighbors of `(i, j)`,
skipping positions outside `[0, w) × [0, h)`, read from the (pre-step)
cell array with the `i * w + j` slot convention. -/
def spec_moore_count (cs : Cells) (w h i j : Int) : Nat :=
  (mooreOffsets.filter (fun d =>
    decide (0 ≤ i + d.1) && decide (i + d.1 < w) &&
    decide (0 ≤ j + d.2) && decide (j + d.2 < h) &&
    (cs ((i + d.1) * w + (j + d.2)).toNat).is_active_)).length

/-- The slots that the neighbor-count block of `CellGrand::ai_` (lines
180-187) reads when evaluating loop coordinates `(i, j)`, with the source's
guards (`i > 0`, `j > 0`, `i < w_`, `j < h_`) and index expressions. -/
def aiNeighborReads (w h : Int) (i j : Nat) : List Nat :=
  let wn := w.toNat
  (if decide (0 < i) && decide (0 < j) then [(i - 1) * wn + (j - 1)] else []) ++
  (if decide (0 < j) then [i * wn + (j - 1)] else []) ++
  (if decide ((i : Int) < w) && decide (0 < j) then [(i + 1) * wn + (j - 1)] else []) ++
  (if decide ((i : Int) < w) then [(i + 1) * wn + j] else []) ++
  (if decide ((i : Int) < w) && decide ((j : Int) < h) then [(i + 1) * wn + (j + 1)] else []) ++
  (if decide ((j : Int) < h) then [i * wn + (j + 1)] else []) ++
  (if decide (0 < i) && decide ((j : Int) < h) then [(i - 1) * wn + (j + 1)] else []) ++
  (if decide (0 < i) then [(i - 1) * wn + j] else [])

/-- A constant jitter oracle (a legal value of `Random::get(-1, 1)`). -/
def rnd1 : Nat → Int := fun _ => 1

/-- The `cell_count_` that a layout pass derives: the product of the two
per-axis counts computed by `layoutAxis` from the logical window size. -/
def derivedCount (side w h lww lwh : Int) : Int :=
  (layoutAxis side w lww).2 * (layoutAxis side h lwh).2

/-!
Concrete runs of the engine, used to evaluate the code at specific inputs.
All use render scale `(1, 1)` unless a scale change is the point, so the
modelled integer arithmetic coincides exactly with the source's float
arithmetic.
-/

/-- A 3×3 grid: side 8, requested 25×25, scale 1, window 40×40 (the resize
branch yields `w_ = h_ = 3`, `cell_count_ = 9`, cells at x,y ∈ {4,14,24}). -/
def g3x3 : CellGrand := (CellGrand.construct 8 25 25 1 1 40 40).getD default

/-- The 3×3 grid with the single cell (0,0) toggled active (pointer at
(5,5), inside only that cell's square) and the commit key pressed: Running,
`ready_ = 1`, exactly slot 0 active. -/
def g3x3run : CellGrand :=
  handle_input 5 5 (SDLEvent.keyDown SDL_SCANCODE_RETURN)
    (handle_input 5 5 (SDLEvent.mouseButtonDown SDL_BUTTON_LEFT) g3x3)

/-- The state after one Running advance of `g3x3run`. -/
def g3x3post : CellGrand := ((play 1 1 40 40 rnd1 g3x3run).getD (false, default)).2

/-- A 1×1 grid: side 8, requested 25×25, scale 1, window 20×20. -/
def g1x1 : CellGrand := (CellGrand.construct 8 25 25 1 1 20 20).getD default

/-- The 1×1 grid with its cell toggled active and the commit key pressed:
Running with `ready_ = 1`. -/
def g1x1run : CellGrand :=
  handle_input 5 5 (SDLEvent.keyDown SDL_SCANCODE_RETURN)
    (handle_input 5 5 (SDLEvent.mouseButtonDown SDL_BUTTON_LEFT) g1x1)

/-- The state after one Running advance of `g1x1run`: the lone cell dies
(`ready_` reaches 0) inside this `play` call. -/
def g1x1post : CellGrand := ((play 1 1 20 20 rnd1 g1x1run).getD (false, default)).2

/-- A 2×2 grid: side 8, requested 2×2, scale 1, window 80×60 (the centered
branch keeps 2×2; cells at x ∈ {31,41}, y ∈ {21,31}). -/
def g2x2 : CellGrand := (CellGrand.construct 8 2 2 1 1 80 60).getD default

/-- The 2×2 grid with cell (1,0) (slot 2, square [41,49]×[21,29]) toggled
active: Editing, `ready_ = 1`. -/
def g2x2tog : CellGrand :=
  handle_input 45 25 (SDLEvent.mouseButtonDown SDL_BUTTON_LEFT) g2x2

/-- `g2x2tog` re-laid-out by a scale change to 2 (logical window 40×30, so
the resized grid is 3×2 with `cell_count_ = 6`). -/
def g2x2relayout : CellGrand := (update_ 2 2 80 60 g2x2tog).getD default

/-- `g2x2tog` after one Editing advance with the jitter oracle drawing 1:
slot 2 is active with `shake_ = (1, 1)`. -/
def g2x2jit : CellGrand := ((play 1 1 80 60 rnd1 g2x2tog).getD (false, default)).2

/-- `g2x2jit` with cell (1,0) toggled back off: Editing, `ready_ = 0`,
slot 2 inactive but still carrying `shake_ = (1, 1)`. -/
def g2x2jitoff : CellGrand :=
  handle_input 45 25 (SDLEvent.mouseButtonDown SDL_BUTTON_LEFT) g2x2jit

/-- `g2x2jitoff` after an advance that observes scale 2: the re-layout to
3×2 and the Editing jitter pass both run inside this one `play` call. -/
def g2x2jitpost : CellGrand := ((play 2 2 80 60 rnd1 g2x2jitoff).getD (false, default)).2

/-- A 3×2 grid: side 8, requested 25×25, scale 1, window 40×30 (resize
branch: `w_ = 3`, `h_ = 2`, `cell_count_ = 6`; slots `i * 3 + j` for
`i < 3, j < 2` are `{0,1,3,4,6,7}`). -/
def g3x2 : CellGrand := (CellGrand.construct 8 25 25 1 1 40 30).getD default

/-- The 3×2 grid with cell (0,0) (slot 0, square [4,12]×[4,12]) toggled
active — the pointer at (9,5) is inside only that square — and the commit
key pressed: Running, `ready_ = 1`. -/
def g3x2run : CellGrand :=
  handle_input 9 5 (SDLEvent.keyDown SDL_SCANCODE_RETURN)
    (handle_input 9 5 (SDLEvent.mouseButtonDown SDL_BUTTON_LEFT) g3x2)

/-- The state after one Running advance of `g3x2run`. -/
def g3x2post : CellGrand := ((play 1 1 40 30 rnd1 g3x2run).getD (false, default)).2

/-!
Generic helper lemmas about the folds and counters used by the embedding.
-/

/-- A fold preserves any invariant its step preserves. -/
theorem foldlPreserve {α β : Type} (P : α → Prop) (f : α → β → α)
    (hf : ∀ (x : α) (b : β), P x → P (f x b)) :
    ∀ (l : List β) (a : α), P a → P (l.foldl f a)
  | [], _, h => h
  | b :: l, a, h => foldlPreserve P f hf l (f a b) (hf a b h)

/-- Reading the slot just written. -/
theorem updateCell_same (cs : Cells) (k : Nat) (f : Cell → Cell) :
    updateCell cs k f k = f (cs k) := by
  simp [updateCell]

/-- Reading any other slot. -/
theorem updateCell_other (cs : Cells) (k : Nat) (f : Cell → Cell) (n : Nat)
    (h : n ≠ k) : updateCell cs k f n = cs n := by
  simp [updateCell, h]

/-- `countAct` only looks at slots below `n`. -/
theorem countAct_congr (cs cs' : Cells) :
    ∀ n : Nat, (∀ k, k < n → cs k = cs' k) → countAct cs n = countAct cs' n
  | 0, _ => rfl
  | n + 1, h => by
      simp only [countAct]
      rw [countAct_congr cs cs' n (fun k hk => h k (Nat.lt_succ_of_lt hk)),
        h n (Nat.lt_succ_self n)]

/-- Writing one slot below `n` changes `countAct` by that slot's activity
delta. -/
theorem countAct_updateCell (cs : Cells) (i : Nat) (f : Cell → Cell) :
    ∀ n : Nat, i < n →
      countAct (updateCell cs i f) n
        = countAct cs n + (if (f (cs i)).is_active_ then 1 else 0)
          - (if (cs i).is_active_ then 1 else 0)
  | 0, h => absurd h (Nat.not_lt_zero i)
  | n + 1, h => by
      rcases Nat.lt_or_ge i n with hi | hi
      · simp only [countAct]
        rw [countAct_updateCell cs i f n hi,
          updateCell_other cs i f n (Nat.ne_of_gt hi)]
        ring
      · have hin : i = n := Nat.le_antisymm (Nat.lt_succ_iff.mp h) hi
        subst hin
        simp only [countAct]
        rw [updateCell_same,
          countAct_congr (updateCell cs i f) cs i
            (fun k hk => updateCell_other cs i f k (Nat.ne_of_lt hk))]
        ring

/-- If every slot is inactive, the count is zero. -/
theorem countAct_zero (cs : Cells) (hcs : ∀ k, (cs k).is_active_ = false) :
    ∀ n : Nat, countAct cs n = 0
  | 0 => rfl
  | n + 1 => by simp [countAct, countAct_zero cs hcs n, hcs n]

/-!
Structure lemmas about `handle_input`'s per-cell loop.
-/

/-- The fold of the `handle_input` loop over the first `n` slots. -/
def hiFold (side mx my : Int) (start : Bool) (e : SDLEvent)
    (st : Cells × Int) (n : Nat) : Cells × Int :=
  (List.range n).foldl (hiStep side mx my start e) st

/-- Unfolding one more loop iteration. -/
theorem hiFold_succ (side mx my : Int) (start : Bool) (e : SDLEvent)
    (st : Cells × Int) (n : Nat) :
    hiFold side mx my start e st (n + 1)
      = hiStep side mx my start e (hiFold side mx my start e st n) n := by
  simp [hiFold, List.range_succ]

/-- `hiCell` changes `is_active_` exactly when editing, hovered, and a left
press is being handled. -/
theorem hiCell_active (side mx my : Int) (start : Bool) (e : SDLEvent) (c : Cell) :
    (hiCell side mx my start e c).is_active_
      = if !start && hoverB side mx my c && isLeftDown e then !c.is_active_
        else c.is_active_ := by
  simp only [hiCell]
  split <;> simp_all

/-- `hiDelta` is exactly the activity delta that `hiCell` causes. -/
theorem hiDelta_eq (side mx my : Int) (start : Bool) (e : SDLEvent) (c : Cell) :
    hiDelta side mx my start e c
      = (if (hiCell side mx my start e c).is_active_ then 1 else 0)
        - (if c.is_active_ then 1 else 0) := by
  rw [hiCell_active]
  simp only [hiDelta]
  split
  · cases hb : c.is_active_ <;> simp
  · ring

/-- After the loop has visited the first `n` slots, slot `k` holds the
`hiCell` image of its original content when `k < n`, and its original
content otherwise. -/
theorem hiFold_cells (side mx my : Int) (start : Bool) (e : SDLEvent)
    (st : Cells × Int) :
    ∀ n k, (hiFold side mx my start e st n).1 k
      = if k < n then hiCell side mx my start e (st.1 k) else st.1 k
  | 0, k => by simp [hiFold]
  | n + 1, k => by
      rw [hiFold_succ]
      rcases Nat.lt_trichotomy k n with hk | hk | hk
      · simp only [hiStep]
        rw [updateCell_other _ _ _ _ (Nat.ne_of_lt hk),
          hiFold_cells side mx my start e st n k, if_pos hk,
          if_pos (Nat.lt_succ_of_lt hk)]
      · subst hk
        simp only [hiStep]
        rw [updateCell_same, hiFold_cells side mx my start e st k k]
        simp
      · simp only [hiStep]
        rw [updateCell_other _ _ _ _ (Nat.ne_of_gt hk),
          hiFold_cells side mx my start e st n k,
          if_neg (Nat.lt_asymm hk), if_neg (by omega)]

/-- Loop invariant: `ready_` minus the active count is unchanged by the
per-cell loop (each toggle adjusts both by the same amount). -/
theorem hiFold_ready (side mx my : Int) (start : Bool) (e : SDLEvent)
    (st : Cells × Int) (m : Nat) :
    ∀ n, n ≤ m →
      (hiFold side mx my start e st n).2
          - countAct (hiFold side mx my start e st n).1 m
        = st.2 - countAct st.1 m
  | 0, _ => by simp [hiFold]
  | n + 1, h => by
      have ih := hiFold_ready side mx my start e st m n (Nat.le_of_succ_le h)
      rw [hiFold_succ]
      simp only [hiStep]
      rw [countAct_updateCell _ _ _ m (Nat.lt_of_succ_le h)]
      rw [hiDelta_eq]
      have hc := hiFold_cells side mx my start e st n n
      rw [if_neg (Nat.lt_irrefl n)] at hc
      rw [hc]
      omega

/-- When no left press is being handled, or the engine is running, the loop
leaves `ready_` untouched. -/
theorem hiFold_ready_const (side mx my : Int) (start : Bool) (e : SDLEvent)
    (st : Cells × Int) (hcond : isLeftDown e = false ∨ start = true) :
    ∀ n, (hiFold side mx my start e st n).2 = st.2
  | 0 => rfl
  | n + 1 => by
      rw [hiFold_succ]
      simp only [hiStep]
      rw [hiFold_ready_const side mx my start e st hcond n]
      have hd : hiDelta side mx my start e ((hiFold side mx my start e st n).1 n) = 0 := by
        rcases hcond with hcond | hcond <;> simp [hiDelta, hcond]
      rw [hd]
      ring

/-- `handle_input` rewritten through `hiFold`. -/
theorem handle_input_eq (mouse_x mouse_y : Int) (e : SDLEvent) (g : CellGrand) :
    handle_input mouse_x mouse_y e g
      = (let st := hiFold g.side_ (mouse_x.tdiv g.scale_x_) (mouse_y.tdiv g.scale_y_)
           g.start_ e (g.cells_, g.ready_) g.cell_count_.toNat
         let start1 := if decide (st.2 > 0) && isCommitKey e then !g.start_ else g.start_
         if start1 && decide (st.2 ≤ 0) then
           { g with cells_ := st.1, ready_ := 0, start_ := false }
         else
           { g with cells_ := st.1, ready_ := st.2, start_ := start1 }) := rfl

/-- A write whose result is inactive preserves the pointwise
inactive-or-untouched invariant. -/
theorem updateCell_pointwise (cs : Cells) (idx : Nat) (f : Cell → Cell)
    (base : Cells) (hf : ∀ c, (f c).is_active_ = false)
    (h : ∀ k, (cs k).is_active_ = false ∨ cs k = base k) :
    ∀ k, (updateCell cs idx f k).is_active_ = false ∨ updateCell cs idx f k = base k := by
  intro k
  by_cases hk : k = idx
  · subst hk; rw [updateCell_same]; exact Or.inl (hf _)
  · rw [updateCell_other _ _ _ _ hk]; exact h k

/-- What a successful `init_cells_` preserves and establishes: mode, counter,
side and scale are untouched, and every slot is either (re)set to inactive or
left exactly as it was. -/
theorem init_cells_some_facts {ww wh : Int} {g g' : CellGrand}
    (h : init_cells_ ww wh g = some g') :
    g'.start_ = g.start_ ∧ g'.ready_ = g.ready_ ∧ g'.side_ = g.side_ ∧
    g'.scale_x_ = g.scale_x_ ∧ g'.scale_y_ = g.scale_y_ ∧
    (∀ k, (g'.cells_ k).is_active_ = false ∨ g'.cells_ k = g.cells_ k) := by
  simp only [init_cells_] at h
  split at h
  · injection h with h
    subst h
    refine ⟨rfl, rfl, rfl, rfl, rfl, ?_⟩
    dsimp only
    refine foldlPreserve
      (fun cs : Cells => ∀ k, (cs k).is_active_ = false ∨ cs k = g.cells_ k)
      _ ?_ _ _ (fun k => Or.inr rfl)
    intro cs0 i hP
    refine foldlPreserve
      (fun cs : Cells => ∀ k, (cs k).is_active_ = false ∨ cs k = g.cells_ k)
      _ ?_ _ _ hP
    intro cs1 j hQ
    exact updateCell_pointwise cs1 _ _ g.cells_ (fun c => rfl) hQ
  · cases h

/-- What a successful `update_` preserves: mode, counter and side. -/
theorem update_some_facts {sx sy ww wh : Int} {g g' : CellGrand}
    (h : update_ sx sy ww wh g = some g') :
    g'.start_ = g.start_ ∧ g'.ready_ = g.ready_ ∧ g'.side_ = g.side_ := by
  simp only [update_] at h
  split at h
  · injection h with h; subst h; exact ⟨rfl, rfl, rfl⟩
  · have hf := init_cells_some_facts h
    exact ⟨hf.1, hf.2.1, hf.2.2.1⟩

/-- `ai_` never touches the mode flag, the grid shape, or the scale. -/
theorem ai_fields (rnd : Nat → Int) (g : CellGrand) :
    (ai_ rnd g).start_ = g.start_ ∧ (ai_ rnd g).cell_count_ = g.cell_count_ ∧
    (ai_ rnd g).w_ = g.w_ ∧ (ai_ rnd g).h_ = g.h_ ∧ (ai_ rnd g).side_ = g.side_ :=
  ⟨rfl, rfl, rfl, rfl, rfl⟩

/-- A freshly constructed engine is Editing with `ready_ = 0` and every
slot inactive. -/
theorem construct_some_facts {side w h sx sy ww wh : Int} {g0 : CellGrand}
    (hc : CellGrand.construct side w h sx sy ww wh = some g0) :
    g0.start_ = false ∧ g0.ready_ = 0 ∧ (∀ k, (g0.cells_ k).is_active_ = false) := by
  simp only [CellGrand.construct] at hc
  split at hc
  · have hf := init_cells_some_facts hc
    refine ⟨hf.1, hf.2.1, fun k => ?_⟩
    rcases hf.2.2.2.2.2 k with hk | hk
    · exact hk
    · rw [hk]
  · cases hc

/-- `handle_input` through an Editing, non-commit event: the engine stays
Editing, the grid shape is unchanged, and `ready_` minus the active count
is invariant. -/
theorem handle_input_editing (mouse_x mouse_y : Int) (e : SDLEvent) (g : CellGrand)
    (hs : g.start_ = false) (he : isCommitKey e = false) :
    (handle_input mouse_x mouse_y e g).start_ = false
    ∧ (handle_input mouse_x mouse_y e g).cell_count_ = g.cell_count_
    ∧ ((handle_input mouse_x mouse_y e g).ready_
        - activeCount (handle_input mouse_x mouse_y e g)
      = g.ready_ - activeCount g) := by
  rw [handle_input_eq]
  dsimp only
  rw [hs, he]
  simp only [Bool.and_false, Bool.false_eq_true, if_false, Bool.false_and]
  refine ⟨by trivial, by trivial, ?_⟩
  have hfr := hiFold_ready g.side_ (mouse_x.tdiv g.scale_x_) (mouse_y.tdiv g.scale_y_)
    false e (g.cells_, g.ready_) g.cell_count_.toNat g.cell_count_.toNat (Nat.le_refl _)
  dsimp only at hfr
  simpa [activeCount] using hfr

/-- The cell array produced by `handle_input` is the per-cell loop's fold,
whichever way the trailing mode logic goes. -/
theorem handle_input_cells (mouse_x mouse_y : Int) (e : SDLEvent) (g : CellGrand) :
    (handle_input mouse_x mouse_y e g).cells_
      = (hiFold g.side_ (mouse_x.tdiv g.scale_x_) (mouse_y.tdiv g.scale_y_) g.start_ e
          (g.cells_, g.ready_) g.cell_count_.toNat).1 := by
  rw [handle_input_eq]
  dsimp only
  split <;> split <;> rfl

/-- While Running, no input event changes any cell's `active` flag. -/
theorem handle_input_running_cells (mouse_x mouse_y : Int) (e : SDLEvent)
    (g : CellGrand) (hs : g.start_ = true) (k : Nat) :
    ((handle_input mouse_x mouse_y e g).cells_ k).is_active_
      = (g.cells_ k).is_active_ := by
  rw [handle_input_cells, hiFold_cells]
  split
  · rw [hiCell_active]; simp [hs]
  · rfl

/-- An Editing engine with `ready_ = 0` stays Editing with `ready_ = 0`
under any event that is not a left press (in particular the commit key). -/
theorem handle_input_zero_ready (mouse_x mouse_y : Int) (e : SDLEvent) (g : CellGrand)
    (hs : g.start_ = false) (hr : g.ready_ = 0) (hl : isLeftDown e = false) :
    (handle_input mouse_x mouse_y e g).start_ = false
    ∧ (handle_input mouse_x mouse_y e g).ready_ = 0 := by
  have hready := hiFold_ready_const g.side_ (mouse_x.tdiv g.scale_x_)
    (mouse_y.tdiv g.scale_y_) g.start_ e (g.cells_, g.ready_) (Or.inl hl)
    g.cell_count_.toNat
  dsimp only at hready
  rw [handle_input_eq]
  dsimp only
  rw [hready, hr, hs]
  simp

/-- A Running engine whose `ready_` is already `≤ 0` is stopped and reset by
the next `handle_input` call, whatever the event. -/
theorem handle_input_running_stop (mouse_x mouse_y : Int) (e : SDLEvent) (g : CellGrand)
    (hs : g.start_ = true) (hr : g.ready_ ≤ 0) :
    (handle_input mouse_x mouse_y e g).start_ = false
    ∧ (handle_input mouse_x mouse_y e g).ready_ = 0 := by
  have hready := hiFold_ready_const g.side_ (mouse_x.tdiv g.scale_x_)
    (mouse_y.tdiv g.scale_y_) g.start_ e (g.cells_, g.ready_) (Or.inr hs)
    g.cell_count_.toNat
  dsimp only at hready
  rw [handle_input_eq]
  dsimp only
  rw [hready, hs]
  have h1 : decide (g.ready_ > 0) = false := by simpa using hr
  have h2 : decide (g.ready_ ≤ 0) = true := by simpa using hr
  rw [h1, h2]
  simp

/-- `play` hands back the post-pass `start_` flag, and the pass itself never
changes that flag (neither `update_`/`init_cells_` nor `ai_` touches it). -/
theorem play_mode_facts {sx sy ww wh : Int} {rnd : Nat → Int} {g : CellGrand}
    {b : Bool} {g' : CellGrand} (hp : play sx sy ww wh rnd g = some (b, g')) :
    g'.start_ = g.start_ ∧ b = g'.start_ := by
  simp only [play] at hp
  cases hu : update_ sx sy ww wh g with
  | none => rw [hu] at hp; cases hp
  | some g1 =>
      rw [hu] at hp
      simp only [Option.map_some'] at hp
      injection hp with hpair
      have hb : (ai_ rnd g1).start_ = b := congrArg Prod.fst hpair
      have hg : ai_ rnd g1 = g' := congrArg Prod.snd hpair
      subst hg
      exact ⟨(ai_fields rnd g1).1.trans (update_some_facts hu).1, hb.symm⟩

/-- Any sequence of non-commit events keeps the engine Editing and keeps
`ready_` equal to the number of active cells. -/
theorem runInputs_inv (evs : List (Int × Int × SDLEvent)) :
    ∀ (g : CellGrand), (∀ p ∈ evs, isCommitKey p.2.2 = false) →
      g.start_ = false → g.ready_ = activeCount g →
      (runInputs evs g).start_ = false
      ∧ (runInputs evs g).ready_ = activeCount (runInputs evs g) := by
  induction evs with
  | nil => exact fun g _ hs hr => ⟨hs, hr⟩
  | cons p evs ih =>
      intro g hev hs hr
      have he := hev p (List.mem_cons_self p evs)
      have h1 := handle_input_editing p.1 p.2.1 p.2.2 g hs he
      have hstep : runInputs (p :: evs) g
          = runInputs evs (handle_input p.1 p.2.1 p.2.2 g) := rfl
      rw [hstep]
      refine ih _ (fun q hq => hev q (List.mem_cons_of_mem p hq)) h1.1 ?_
      have h2 := h1.2.2
      omega

/-!
The claims.
-/

/-- C1: the claim says each cell's neighbor count is computed afresh per
cell from the pre-step snapshot, with births exactly at count 3.  The code
declares `check_around` once (line 167) and never resets it between cells,
so the count accumulates across the whole scan.  Failing input: the 3×3 grid
with only cell (0,0) active, Running.  The spec-faithful Moore count of cell
(1,1) is 1, so per the claim it must stay inactive; the code instead marks
it (and every later cell) for birth: after one advance slot 4 is active and
`ready_` has grown from 1 to 5, where the claim demands the lone cell simply
dies (`ready_ = 0`). -/
theorem c1_neighbor_count_not_fresh :
    g3x3run.start_ = true ∧ g3x3run.w_ = 3 ∧ g3x3run.h_ = 3 ∧
    g3x3run.ready_ = 1 ∧
    (g3x3run.cells_ 0).is_active_ = true ∧
    (∀ k ∈ [1, 2, 3, 4, 5, 6, 7, 8], (g3x3run.cells_ k).is_active_ = false) ∧
    spec_moore_count g3x3run.cells_ 3 3 1 1 = 1 ∧
    (g3x3post.cells_ 4).is_active_ = true ∧
    (g3x3post.cells_ 0).is_active_ = false ∧
    g3x3post.ready_ = 5 := by
  decide

/-- C2: the claim says every neighbor read stays inside `[0, columns*rows)`.
The high-edge guards of lines 180-187 are `i < w_` / `j < h_` (instead of
`i < w_ - 1` / `j < h_ - 1`), so on the 3×3 grid the scan of cell (2,0)
reads slots 9 and 10, outside `[0, 9)`. -/
theorem c2_neighbor_read_out_of_bounds :
    g3x3.w_ = 3 ∧ g3x3.h_ = 3 ∧ g3x3.cell_count_ = 9 ∧
    9 ∈ aiNeighborReads g3x3.w_ g3x3.h_ 2 0 ∧
    ¬ (9 : Nat) < (g3x3.w_ * g3x3.h_).toNat := by
  decide

/-- C3 counterexample: on the 1×1 grid in Running mode the lone cell dies
during `play` (the commit pass leaves `ready_ = 0`), yet at the end of that
same advance call the engine is still Running (`start_` is still `true`,
and `play` even returns `true`), contradicting the claim that the
transition back to Editing happens by the end of that advance call. -/
theorem c3_advance_keeps_running_after_death :
    g1x1run.start_ = true ∧ g1x1run.ready_ = 1 ∧
    play 1 1 20 20 rnd1 g1x1run = some (true, g1x1post) ∧
    g1x1post.ready_ = 0 ∧ g1x1post.start_ = true := by
  refine ⟨by decide, by decide, rfl, by decide, by decide⟩

/-- C3 amended: the advance call itself never changes the mode flag, even
when its commit pass leaves `ready_ ≤ 0`; the transition to Editing with
`ready_` reset to 0 happens at the next `handle_input` call (whatever the
event), per lines 136-139. -/
theorem c3_auto_stop_at_next_input :
    (∀ (sx sy ww wh : Int) (rnd : Nat → Int) (g : CellGrand) (b : Bool)
        (g' : CellGrand),
      play sx sy ww wh rnd g = some (b, g') → g'.start_ = g.start_)
    ∧ (∀ (mouse_x mouse_y : Int) (e : SDLEvent) (g : CellGrand),
      g.start_ = true → g.ready_ ≤ 0 →
        (handle_input mouse_x mouse_y e g).start_ = false
        ∧ (handle_input mouse_x mouse_y e g).ready_ = 0) :=
  ⟨fun _ _ _ _ _ _ _ _ hp => (play_mode_facts hp).1,
   fun mouse_x mouse_y e g hs hr => handle_input_running_stop mouse_x mouse_y e g hs hr⟩

/-- C3 witness: the amended statement applied to the dead 1×1 run. -/
theorem c3_auto_stop_witness :
    g1x1post.start_ = g1x1run.start_
    ∧ (handle_input 0 0 SDLEvent.other g1x1post).start_ = false
    ∧ (handle_input 0 0 SDLEvent.other g1x1post).ready_ = 0 :=
  ⟨c3_auto_stop_at_next_input.1 1 1 20 20 rnd1 g1x1run true g1x1post rfl,
   (c3_auto_stop_at_next_input.2 0 0 SDLEvent.other g1x1post (by decide) (by decide)).1,
   (c3_auto_stop_at_next_input.2 0 0 SDLEvent.other g1x1post (by decide) (by decide)).2⟩

/-- C4: the claim says every layout pass leaves all cells inactive and
`ready_ = 0`.  Failing input: the 2×2 grid with one active cell
(`ready_ = 1`) re-laid-out by a scale change to 2: the resulting 3×2 layout
pass leaves `ready_ = 1`, and slot 2 — inside the new `[0, 6)` slot range but
outside the image of the buggy `i * w_ + j` reset loop — is still active. -/
theorem c4_relayout_keeps_ready_and_active :
    g2x2tog.ready_ = 1 ∧ (g2x2tog.cells_ 2).is_active_ = true ∧
    (update_ 2 2 80 60 g2x2tog).isSome = true ∧
    g2x2relayout.w_ = 3 ∧ g2x2relayout.h_ = 2 ∧ g2x2relayout.cell_count_ = 6 ∧
    g2x2relayout.ready_ = 1 ∧
    (g2x2relayout.cells_ 2).is_active_ = true := by
  decide

/-- C5 counterexample: with side 3, requested count 20 and logical window
width 100, the resize branch fires and chooses 19 columns, whose footprint
3·19 + 2·18 = 93 exceeds the claimed bound 100 − (4·2 + 2·3) = 86; nor is 19
the largest count fitting that bound, since 17 fits it. -/
theorem c5_layout_margin_violated :
    (layoutAxis 3 20 100).2 = 19 ∧
    ¬ (3 * (layoutAxis 3 20 100).2 + kGap * ((layoutAxis 3 20 100).2 - 1)
        ≤ 100 - (4 * kGap + 2 * 3)) ∧
    3 * 17 + kGap * ((17 : Int) - 1) ≤ 100 - (4 * kGap + 2 * 3) ∧
    (17 : Int) < 19 := by
  decide

/-- C5 amended: when the requested count's extent fits under the threshold
`win − (4·gap + 2·side)` the count is kept and the grid is centered (so the
claimed bound holds in that branch); otherwise the grid is anchored at
`2·gap` and resized to the largest count whose footprint fits within
`win − 2·gap` — a weaker margin than the claimed `4·gap + 2·side`. -/
theorem c5_layout_fit_amended (side count win : Int) (hs : 3 ≤ side)
    (hw : 2 ≤ win) :
    (side * count + kGap * (count - 1) ≤ win - (4 * kGap + 2 * side) →
      layoutAxis side count win
        = ((win - (side * count + kGap * (count - 1))).tdiv 2, count))
    ∧ (¬ (side * count + kGap * (count - 1) ≤ win - (4 * kGap + 2 * side)) →
      (layoutAxis side count win).1 = 2 * kGap
      ∧ side * (layoutAxis side count win).2
          + kGap * ((layoutAxis side count win).2 - 1) ≤ win - 2 * kGap
      ∧ (∀ k : Int, side * k + kGap * (k - 1) ≤ win - 2 * kGap →
          k ≤ (layoutAxis side count win).2)) := by
  constructor
  · intro hfit
    simp only [layoutAxis, kGap] at hfit ⊢
    rw [if_neg (not_lt.mpr hfit)]
    simp only [Prod.mk.injEq]
    refine ⟨by trivial, ?_⟩
    have hext : side * count + 2 * (count - 1) + 2 = (side + 2) * count := by ring
    rw [hext]
    exact Int.mul_tdiv_cancel_left count (by omega)
  · intro hnofit
    simp only [layoutAxis, kGap] at hnofit ⊢
    rw [if_pos (lt_of_not_le hnofit)]
    dsimp only
    have hq : (win - 2).tdiv (2 + side) = (win - 2) / (2 + side) :=
      Int.tdiv_eq_ediv (by omega) (by omega)
    rw [hq]
    have hdm := Int.ediv_add_emod (win - 2) (2 + side)
    have hr0 : 0 ≤ (win - 2) % (2 + side) := Int.emod_nonneg _ (by omega)
    have hr1 : (win - 2) % (2 + side) < 2 + side :=
      Int.emod_lt_of_pos _ (by omega)
    refine ⟨rfl, by linarith, ?_⟩
    intro k hk
    have hk2 : (2 + side) * k < (2 + side) * ((win - 2) / (2 + side) + 1) := by
      linarith
    have hk3 := lt_of_mul_lt_mul_left hk2 (by omega : (0 : Int) ≤ 2 + side)
    omega

/-- C5 witness: the amended resize branch evaluated at side 3, count 20,
window 100. -/
theorem c5_layout_fit_witness :
    (layoutAxis 3 20 100).1 = 2 * kGap
    ∧ 3 * (layoutAxis 3 20 100).2 + kGap * ((layoutAxis 3 20 100).2 - 1)
        ≤ 100 - 2 * kGap :=
  ⟨((c5_layout_fit_amended 3 20 100 (by decide) (by decide)).2 (by decide)).1,
   ((c5_layout_fit_amended 3 20 100 (by decide) (by decide)).2 (by decide)).2.1⟩

/-- C6: the claim says every `pending_change` flag set during the evaluation
pass is consumed by the same advance's commit pass.  Failing input: the 3×2
grid (window 40×30) with only cell (0,0) active, Running.  The evaluation
loops write slot `i * w_ + j` for grid cells (2,0) and (2,1) — slots 6 and 7
— but the commit pass only scans `[0, cell_count_) = [0, 6)`, so after the
advance both flags are still set. -/
theorem c6_pending_survives_advance :
    g3x2run.start_ = true ∧ g3x2run.w_ = 3 ∧ g3x2run.h_ = 2 ∧
    g3x2run.cell_count_ = 6 ∧
    (∀ k ∈ List.range 12, (g3x2run.cells_ k).active_change = false) ∧
    (g3x2post.cells_ 6).active_change = true ∧
    (g3x2post.cells_ 7).active_change = true := by
  decide

/-- C9: the claim says that after every advance, while Editing every
inactive cell's jitter is (0,0).  Failing input: toggle a cell of the 2×2
grid, advance once while Editing (its jitter becomes (1,1)), toggle it off,
then advance under a scale change to 2.  The re-layout to 3×2 does not reset
`shake_`, and slot 2 — inside the new `[0, 6)` range but outside the image of
the `i * w_ + j` loops — is never touched by the jitter pass either: after
that advance the engine is Editing and slot 2 is inactive with jitter
(1,1). -/
theorem c9_stale_jitter_on_inactive_cell :
    g2x2jitpost.start_ = false ∧ g2x2jitpost.cell_count_ = 6 ∧
    (g2x2jitpost.cells_ 2).is_active_ = false ∧
    (g2x2jitpost.cells_ 2).shake_ = ⟨1, 1⟩ ∧
    (g2x2jitpost.cells_ 2).shake_ ≠ ⟨0, 0⟩ := by
  decide

/-- C7: from any freshly constructed engine, after any sequence of
non-commit input events the engine is still Editing and `ready_` equals the
number of active cells; a left press flips exactly the hovered cells (each
in-range cell's `active` flag is negated iff the scaled pointer lies in its
square); while Running no pointer press changes any `active` flag; and with
`ready_ = 0` the commit key is a no-op that leaves the mode Editing and
`ready_` at 0. -/
theorem c7_toggle_ready_accounting
    (side w h sx sy ww wh : Int) (g0 : CellGrand)
    (hc : CellGrand.construct side w h sx sy ww wh = some g0)
    (evs : List (Int × Int × SDLEvent))
    (hev : ∀ p ∈ evs, isCommitKey p.2.2 = false) :
    (runInputs evs g0).ready_ = activeCount (runInputs evs g0)
    ∧ (runInputs evs g0).start_ = false
    ∧ (∀ mouse_x mouse_y : Int, ∀ k : Nat,
        k < (runInputs evs g0).cell_count_.toNat →
        ((handle_input mouse_x mouse_y (SDLEvent.mouseButtonDown SDL_BUTTON_LEFT)
            (runInputs evs g0)).cells_ k).is_active_
          = (if hoverB (runInputs evs g0).side_
                (mouse_x.tdiv (runInputs evs g0).scale_x_)
                (mouse_y.tdiv (runInputs evs g0).scale_y_)
                ((runInputs evs g0).cells_ k)
             then !((runInputs evs g0).cells_ k).is_active_
             else ((runInputs evs g0).cells_ k).is_active_))
    ∧ (∀ (gr : CellGrand) (mouse_x mouse_y bt : Int) (k : Nat),
        gr.start_ = true →
        ((handle_input mouse_x mouse_y (SDLEvent.mouseButtonDown bt) gr).cells_
            k).is_active_
          = (gr.cells_ k).is_active_)
    ∧ (∀ mouse_x mouse_y : Int, (runInputs evs g0).ready_ = 0 →
        (handle_input mouse_x mouse_y (SDLEvent.keyDown SDL_SCANCODE_RETURN)
            (runInputs evs g0)).start_ = false
        ∧ (handle_input mouse_x mouse_y (SDLEvent.keyDown SDL_SCANCODE_RETURN)
            (runInputs evs g0)).ready_ = 0) := by
  obtain ⟨hstart0, hready0, hcells0⟩ := construct_some_facts hc
  have hac0 : activeCount g0 = 0 := countAct_zero g0.cells_ hcells0 _
  have hinv := runInputs_inv evs g0 hev hstart0 (by rw [hready0, hac0])
  refine ⟨hinv.2, hinv.1, ?_, ?_, ?_⟩
  · intro mouse_x mouse_y k hk
    rw [handle_input_cells, hiFold_cells]
    dsimp only
    rw [if_pos hk, hiCell_active, hinv.1]
    have hl : isLeftDown (SDLEvent.mouseButtonDown SDL_BUTTON_LEFT) = true := by decide
    rw [hl]
    simp
  · intro gr mouse_x mouse_y bt k hsr
    exact handle_input_running_cells mouse_x mouse_y _ gr hsr k
  · intro mouse_x mouse_y hr0
    exact handle_input_zero_ready mouse_x mouse_y _ _ hinv.1 hr0 (by decide)

/-- C7 witness: the invariant after one toggle on the 2×2 grid. -/
theorem c7_toggle_ready_witness :
    (runInputs [(45, 25, SDLEvent.mouseButtonDown SDL_BUTTON_LEFT)] g2x2).ready_
      = activeCount
          (runInputs [(45, 25, SDLEvent.mouseButtonDown SDL_BUTTON_LEFT)] g2x2)
    ∧ (runInputs [(45, 25, SDLEvent.mouseButtonDown SDL_BUTTON_LEFT)] g2x2).start_
      = false :=
  ⟨(c7_toggle_ready_accounting 8 2 2 1 1 80 60 g2x2 rfl
      [(45, 25, SDLEvent.mouseButtonDown SDL_BUTTON_LEFT)] (by decide)).1,
   (c7_toggle_ready_accounting 8 2 2 1 1 80 60 g2x2 rfl
      [(45, 25, SDLEvent.mouseButtonDown SDL_BUTTON_LEFT)] (by decide)).2.1⟩

/-- C8: construction succeeds iff the side length is at least 3 and the
derived `columns * rows` does not exceed the fixed capacity 16384 (the two
`assert`s are the only error paths, both modelled as `Option` failure); a
re-layout (`init_cells_`) succeeds iff the recomputed count fits the
capacity.  Nothing is clamped: the failing paths produce no state at all. -/
theorem c8_config_error_iff :
    (∀ side w h sx sy ww wh : Int,
      (CellGrand.construct side w h sx sy ww wh).isSome
        ↔ (3 ≤ side
            ∧ derivedCount side w h (ww.tdiv sx) (wh.tdiv sy) ≤ MAX_CELL_COUNT))
    ∧ (∀ (g : CellGrand) (ww wh : Int),
      (init_cells_ ww wh g).isSome
        ↔ derivedCount g.side_ g.w_ g.h_ (ww.tdiv g.scale_x_) (wh.tdiv g.scale_y_)
            ≤ MAX_CELL_COUNT) := by
  have hinit : ∀ (g : CellGrand) (ww wh : Int),
      (init_cells_ ww wh g).isSome
        ↔ derivedCount g.side_ g.w_ g.h_ (ww.tdiv g.scale_x_) (wh.tdiv g.scale_y_)
            ≤ MAX_CELL_COUNT := by
    intro g ww wh
    simp only [init_cells_, derivedCount]
    split <;> simp_all
  refine ⟨?_, hinit⟩
  intro side w h sx sy ww wh
  simp only [CellGrand.construct]
  split
  · rename_i h3
    rw [hinit]
    simp [h3, derivedCount]
  · rename_i h3
    simp [h3]

/-- C10: whenever `play` completes, the boolean it returns is exactly the
engine's post-pass running flag, and that flag is whatever it was when the
call began (the pass itself never switches mode). -/
theorem c10_play_returns_mode (sx sy ww wh : Int) (rnd : Nat → Int)
    (g : CellGrand) (b : Bool) (g' : CellGrand)
    (hp : play sx sy ww wh rnd g = some (b, g')) :
    b = g'.start_ ∧ g'.start_ = g.start_ :=
  ⟨(play_mode_facts hp).2, (play_mode_facts hp).1⟩

/-- C10 witness: `play` on the Editing 2×2 grid returns `false`. -/
theorem c10_play_returns_mode_witness :
    false = g2x2jit.start_ ∧ g2x2jit.start_ = g2x2tog.start_ :=
  c10_play_returns_mode 1 1 80 60 rnd1 g2x2tog false g2x2jit rfl
